import Mathlib

/-!
Shallow embedding of the libcontainerd container lifecycle code
(`container_unix.go`: `clean`, `cleanProcess`, `spec`, `start`, `handleEvent`)
and of the supervisor create path, together with proofs of the lifecycle
properties stated in the specification.

Pure control flow is translated function by function from the Go source.
External effects (filesystem, FIFO opens, the shim RPC, the backend
notification) are abstracted as boolean / optional oracles supplied in an
environment record, and each run reports the ordered trace of the effects it
attempted, so ordering properties can be stated about real executions.

Parts of the repository that the claims depend on but whose source is not in
the tree (the docker-side client wrapper `client.Create`, the live-container
table helpers `appendContainer` / `deleteContainer` / `getContainer`, and the
lifecycle string constants) are modelled from the specification; each such
definition carries a doc comment saying so.
-/

namespace LibContainerd

/-- Lifecycle state / event-type identifiers. In the Go source these are
distinct string constants (`StateExit`, `StatePause`, `StateResume`,
`StateOOM`, `StateExitProcess`, `StateStart`, ...); only their identity is
ever compared, so they are embedded as an inductive with one constructor per
named constant plus `other` for any unrecognized event-type string. -/
inductive StateId where
  | exit
  | pause
  | resume
  | oom
  | exitProcess
  | startContainer
  | other (s : String)
  deriving DecidableEq, Repr

/-- Modelled from the spec: the distinguished name of a container's init
(first/root) process, compared against `Event.pid` to tell an init exit from
an auxiliary-process exit. (The Go constant lives in a file not in the tree;
only its identity matters.) -/
def InitFriendlyName : String := "init"

/-- An event delivered by the shim: `containerd.Event` restricted to the
fields `handleEvent` reads (`Type`, `Id`, `Pid`, `Status`). -/
structure Event where
  type : StateId
  id : String
  pid : String
  status : Nat
  deriving DecidableEq, Repr

/-- Per-container in-memory state: the fields of Go `container` (and its
embedded `containerCommon`) that the lifecycle code reads or writes. The
process registry keeps only the friendly names, which is all
`cleanProcess` / `handleEvent` use of it. -/
structure Container where
  containerID : String
  dir : String
  oom : Bool
  processes : List String
  systemPid : Nat
  deriving DecidableEq, Repr

/-- The live-container table owned by the client, keyed by container id. -/
structure Client where
  containers : List (String × Container)
  deriving DecidableEq, Repr

/-- Modelled from the spec: `appendContainer` (client code not in the tree)
registers the container in the live table under its id. -/
def appendContainer (cl : Client) (c : Container) : Client :=
  { containers := (c.containerID, c) :: cl.containers }

/-- Modelled from the spec: `deleteContainer` (client code not in the tree)
removes the id's entry from the live-container table. -/
def deleteContainer (cl : Client) (id : String) : Client :=
  { containers := cl.containers.filter (fun p => p.1 ≠ id) }

/-- Result of `os.Lstat` on the container directory, as `clean` distinguishes
outcomes: the directory exists, it does not exist (`os.IsNotExist`), or the
stat failed for another reason. -/
inductive LstatR where
  | present
  | absent
  | otherErr
  deriving DecidableEq, Repr

/-- The environment `clean` consults: the `LIBCONTAINERD_NOCLEAN` variable,
the `Lstat` outcome per path, and whether `RemoveAll` succeeds per path. -/
structure Sys where
  nocleanEnv : String
  lstat : String → LstatR
  removeAllOk : String → Bool

/-- Errors `clean` can return: a non-not-exist `Lstat` failure or a
`RemoveAll` failure. -/
inductive CleanErr where
  | lstatFailure
  | removeFailure
  deriving DecidableEq, Repr

/-- `container.clean` from the source: returns nil immediately when
`LIBCONTAINERD_NOCLEAN` is "1"; returns nil when the directory is already
absent; otherwise removes the directory, propagating a removal failure.
Output: (directory actually removed, returned error). -/
def clean (sys : Sys) (dir : String) : Bool × Option CleanErr :=
  if sys.nocleanEnv = "1" then (false, none)
  else
    match sys.lstat dir with
    | LstatR.absent => (false, none)
    | LstatR.otherErr => (false, some CleanErr.lstatFailure)
    | LstatR.present =>
      if sys.removeAllOk dir then (true, none) else (false, some CleanErr.removeFailure)

/-- `container.cleanProcess` from the source, restricted to its effect on the
process registry: the entry for `id` is deleted. (The FIFO file removals it
also attempts are best-effort; their failures are only logged and do not
affect the registry update.) -/
def cleanProcess (ctr : Container) (id : String) : Container :=
  { ctr with processes := ctr.processes.filter (fun p => p ≠ id) }

/-- The state-changed report `handleEvent` builds (`StateInfo` restricted to
the fields the lifecycle code writes). -/
structure StateInfo where
  state : StateId
  exitCode : Nat
  oomKilled : Bool
  processID : String
  deriving DecidableEq, Repr

/-- The event types `handleEvent`'s switch recognizes; every other type falls
through to the default branch, which only logs. -/
def recognizedType : StateId → Bool
  | StateId.exit => true
  | StateId.pause => true
  | StateId.resume => true
  | StateId.oom => true
  | _ => false

/-- Everything one `handleEvent` call produces: the updated container and
live table, whether (and with what result) `clean` ran, the report queued in
the per-key serial queue, whether the default branch logged an unhandled
event, and the value returned to the caller. -/
structure HEOut where
  ctr : Container
  client : Client
  cleanCalled : Bool
  cleanResult : Option (Bool × Option CleanErr)
  queued : Option StateInfo
  unhandledLogged : Bool
  err : Option String
  deriving Repr

/-- `container.handleEvent` from the source. Under the container's lock:
for a recognized type it builds the report with
`OOMKilled := (e.Type == StateExit && ctr.oom)`, sets the sticky OOM flag on
an OOM event, reclassifies a non-init exit to `StateExitProcess` with the
pid recorded, then on `StateExit` cleans the directory (result ignored) and
deletes the table entry, on `StateExitProcess` removes the process from the
registry, and queues the state-changed notification under the container id;
an unrecognized type is only logged. The function returns nil on every
path. -/
def handleEvent (sys : Sys) (cl : Client) (ctr : Container) (e : Event) : HEOut :=
  if recognizedType e.type then
    let st0 : StateInfo :=
      { state := e.type
        exitCode := e.status
        oomKilled := if e.type = StateId.exit then ctr.oom else false
        processID := "" }
    let ctr1 := if e.type = StateId.oom then { ctr with oom := true } else ctr
    let st :=
      if e.type = StateId.exit ∧ e.pid ≠ InitFriendlyName then
        { st0 with processID := e.pid, state := StateId.exitProcess }
      else st0
    if st.state = StateId.exit then
      { ctr := ctr1
        client := deleteContainer cl e.id
        cleanCalled := true
        cleanResult := some (clean sys ctr1.dir)
        queued := some st
        unhandledLogged := false
        err := none }
    else if st.state = StateId.exitProcess then
      { ctr := cleanProcess ctr1 st.processID
        client := cl
        cleanCalled := false
        cleanResult := none
        queued := some st
        unhandledLogged := false
        err := none }
    else
      { ctr := ctr1
        client := cl
        cleanCalled := false
        cleanResult := none
        queued := some st
        unhandledLogged := false
        err := none }
  else
    { ctr := ctr
      client := cl
      cleanCalled := false
      cleanResult := none
      queued := none
      unhandledLogged := true
      err := none }

/-- The callback `handleEvent` queues in the per-key serial queue: it invokes
`backend.StateChanged` and, when that fails, logs the error; it returns
nothing to the queue, so a notification failure is swallowed there. Input:
the backend call's outcome; output: (log lines emitted, error propagated out
of the slot). -/
def notifySlot (backendErr : Option String) : List String × Option String :=
  match backendErr with
  | some m => (["libcontainerd: backend.StateChanged(): " ++ m], none)
  | none => ([], none)

/-- The externally visible steps of `container.start`, in program order. -/
inductive Effect where
  | readSpec
  | openFifos
  | wrapStdin
  | appendCtr
  | attachStdio
  | createRPC
  | closeFifos
  | closeReady
  | stateChanged
  deriving DecidableEq, Repr

/-- The persisted specification as `start` uses it (only
`spec.Process.Terminal` is consulted, to pick the FIFO layout). -/
structure SpecT where
  terminal : Bool
  deriving DecidableEq, Repr

/-- Oracle outcomes for the effectful steps of one `container.start` run:
the spec read-back (`none` = read or unmarshal failure), whether `openFifos`
succeeds, whether the stdio callback succeeds, the shim create RPC result
(`some pid` = acknowledged with that init system id), and whether the final
`StateChanged` call succeeds. -/
structure StartEnv where
  specRead : Option SpecT
  fifoOpenOk : Bool
  attachOk : Bool
  rpcPid : Option Nat
  stateChangedOk : Bool
  deriving DecidableEq, Repr

/-- The error `container.start` returns, by failing step. -/
inductive StartErr where
  | fifoErr
  | attachErr
  | rpcErr
  | stateChangedErr
  deriving DecidableEq, Repr

/-- Result of one `container.start` run: the ordered trace of attempted
effects, whether the container was registered in the live table
(`appendContainer` reached), the init system id recorded (`ctr.systemPid`),
and the value returned to the caller. -/
structure StartOut where
  trace : List Effect
  registered : Bool
  pid : Option Nat
  err : Option StartErr
  deriving DecidableEq, Repr

/-- `container.start` from the source, step for step: read the persisted
spec back (on failure the source returns nil — reproduced here verbatim);
open the FIFOs (on failure return the error); wrap stdin with the deferred
close-notification wrapper; build the create request and register the
container in the live table; invoke the stdio callback (on failure close the
FIFOs and return the error); issue the create RPC (on failure close the
FIFOs and return the error); record the init system id, close the ready
channel, and return the result of the `StateChanged` notification. -/
def start (env : StartEnv) : StartOut :=
  match env.specRead with
  | none =>
    { trace := [Effect.readSpec], registered := false, pid := none, err := none }
  | some _ =>
    if env.fifoOpenOk = false then
      { trace := [Effect.readSpec, Effect.openFifos]
        registered := false, pid := none, err := some StartErr.fifoErr }
    else
      let t := [Effect.readSpec, Effect.openFifos, Effect.wrapStdin,
                Effect.appendCtr, Effect.attachStdio]
      if env.attachOk = false then
        { trace := t ++ [Effect.closeFifos]
          registered := true, pid := none, err := some StartErr.attachErr }
      else
        match env.rpcPid with
        | none =>
          { trace := t ++ [Effect.createRPC, Effect.closeFifos]
            registered := true, pid := none, err := some StartErr.rpcErr }
        | some p =>
          { trace := t ++ [Effect.createRPC, Effect.closeReady, Effect.stateChanged]
            registered := true
            pid := some p
            err := if env.stateChangedOk then none else some StartErr.stateChangedErr }

/-- State of the wrapped stdin writer: whether the do-once guard has fired,
whether the underlying pipe's Close has been issued, and whether the
background notification waiter has been spawned. -/
structure StdinState where
  onceDone : Bool
  pipeCloseCalled : Bool
  waiterSpawned : Bool
  deriving DecidableEq, Repr

/-- One Close call on the wrapped stdin writer from `container.start`: the
do-once guard runs the body only on the first call, which closes the
underlying pipe immediately, spawns the background waiter, and returns the
pipe Close's result; every later call does nothing and returns nil. -/
def closeRequest (closeErr : Option String) (s : StdinState) : StdinState × Option String :=
  if s.onceDone then (s, none)
  else ({ onceDone := true, pipeCloseCalled := true, waiterSpawned := true }, closeErr)

/-- Which of the two channels the background waiter's first select saw first:
the ready channel closing (create acknowledged) or the start context's
cancellation. -/
inductive FirstWake where
  | readyFirst
  | cancelFirst
  deriving DecidableEq, Repr

/-- The background waiter spawned on first stdin close: the first select
blocks until the ready channel closes or the context is canceled; the second
select sends the close-stdin notification to the shim only if the ready
channel is closed at that moment, otherwise the default branch abandons it.
Inputs: which wakeup came first, and whether ready is closed when the second
select runs; output: whether the notification is sent. -/
def waiterSends (w : FirstWake) (readyClosedAtSecond : Bool) : Bool :=
  match w with
  | FirstWake.readyFirst => true
  | FirstWake.cancelFirst => readyClosedAtSecond

/-- Errors the create path can return, by failing step. `preclean` carries
the error of the pre-start `clean` call, which `client.Create` returns as is
before the rollback defer is installed. -/
inductive CreateErr where
  | alreadyActive
  | rootIDsErr
  | prepareDirErr
  | preclean (ce : CleanErr)
  | mkdirErr
  | writeSpecErr
  | fromStart (e : StartErr)
  deriving DecidableEq, Repr

/-- Oracle outcomes for `client.Create`'s own steps: resolving uid/gid from
the spec (`getRootIDs`), preparing the bundle parent directory
(`prepareBundleDir`), creating the container directory (`MkdirAllAs`),
persisting the spec (the config-file create plus the JSON encode), and the
embedded `start` run. -/
structure CreateEnv where
  rootIDsOk : Bool
  prepareDirOk : Bool
  mkdirOk : Bool
  writeSpecOk : Bool
  startEnv : StartEnv
  deriving DecidableEq, Repr

/-- Result of one `client.Create` run: the live table afterwards, the value
returned to the caller, what the rollback defer's `clean` call returned
(`none` when the defer did not fire — its value is otherwise discarded by the
source), and the log lines the create path emits on its error paths. -/
structure CreateOut where
  client : Client
  err : Option CreateErr
  rollbackClean : Option (Bool × Option CleanErr)
  logs : List String
  deriving Repr

/-- The rollback defer of `client.Create` (the libcontainerd client chunk
staged in src/vendor/github.com/spf13/cobra/command.go): when an error is
pending it runs `container.clean` and removes the id from the live table
(`deleteContainer`, modelled from the spec as the code is not in the tree).
The defer body discards `clean`'s result and contains no logging statement,
so the clean outcome is only recorded here as the discarded value, the log
output is empty, and the pending error is returned unchanged. -/
def rollbackCreate (sysRoll : Sys) (cl : Client) (id : String) (dir : String)
    (e : CreateErr) : CreateOut :=
  { client := deleteContainer cl id
    err := some e
    rollbackClean := some (clean sysRoll dir)
    logs := [] }

/-- `client.Create` from the source (the libcontainerd client chunk staged
in src/vendor/github.com/spf13/cobra/command.go): under the container's
lock, it fails when the id is already live (`getContainer` finds it — the
lookup itself is modelled from the spec as the live-table lookup, its code
not being in the tree) with the "already active" error, touching nothing;
resolves uid/gid from the spec; prepares the bundle parent directory; builds
the container object; runs a pre-start `clean` of the container directory
and returns its error with no rollback (the defer is not yet installed);
installs the rollback defer; creates the directory, persists the spec, and
runs `container.start` (embedded from src/unnamed/part_001, which registers
the container partway through); any error from these later steps triggers
the rollback before that error is returned. `sysPre` and `sysRoll` are the
filesystem states the pre-start and rollback `clean` calls observe — the
directory is created between the two calls, so they can differ. -/
def createC (sysPre sysRoll : Sys) (cl : Client) (c : Container)
    (env : CreateEnv) : CreateOut :=
  if (List.lookup c.containerID cl.containers).isSome then
    { client := cl, err := some CreateErr.alreadyActive,
      rollbackClean := none, logs := [] }
  else if env.rootIDsOk = false then
    { client := cl, err := some CreateErr.rootIDsErr,
      rollbackClean := none, logs := [] }
  else if env.prepareDirOk = false then
    { client := cl, err := some CreateErr.prepareDirErr,
      rollbackClean := none, logs := [] }
  else
    match (clean sysPre c.dir).2 with
    | some ce =>
      { client := cl, err := some (CreateErr.preclean ce),
        rollbackClean := none, logs := [] }
    | none =>
      if env.mkdirOk = false then
        rollbackCreate sysRoll cl c.containerID c.dir CreateErr.mkdirErr
      else if env.writeSpecOk = false then
        rollbackCreate sysRoll cl c.containerID c.dir CreateErr.writeSpecErr
      else
        let so := start env.startEnv
        let cl1 := if so.registered then appendContainer cl c else cl
        match so.err with
        | some e => rollbackCreate sysRoll cl1 c.containerID c.dir (CreateErr.fromStart e)
        | none => { client := cl1, err := none, rollbackClean := none, logs := [] }

/-- A sample environment for concrete runs: cleanup enabled, the container
directory present, removal succeeding. -/
def sysA : Sys :=
  { nocleanEnv := "0", lstat := fun _ => LstatR.present, removeAllOk := fun _ => true }

/-- A sample environment with `LIBCONTAINERD_NOCLEAN` set to "1". -/
def sysNoClean : Sys :=
  { nocleanEnv := "1", lstat := fun _ => LstatR.present, removeAllOk := fun _ => true }

/-- A sample live container with two registered processes. -/
def ctrA : Container :=
  { containerID := "c1", dir := "/run/docker/libcontainerd/c1", oom := false,
    processes := [InitFriendlyName, "p99"], systemPid := 0 }

/-- `ctrA` with the sticky OOM flag set. -/
def ctrOom : Container :=
  { ctrA with oom := true }

/-- A client whose live table holds exactly `ctrA`. -/
def clLive : Client :=
  { containers := [("c1", ctrA)] }

/-- A sample environment whose `Lstat` reports the directory absent. -/
def sysAbsent : Sys :=
  { nocleanEnv := "0", lstat := fun _ => LstatR.absent, removeAllOk := fun _ => true }

/-- A fully successful `start` oracle: spec readable, FIFOs open, callback
succeeds, RPC acknowledged with pid 42, notification delivered. -/
def startEnvOk : StartEnv :=
  { specRead := some { terminal := false }, fifoOpenOk := true, attachOk := true,
    rpcPid := some 42, stateChangedOk := true }

/-- `startEnvOk` with the stdio callback failing. -/
def startEnvAttachFail : StartEnv :=
  { startEnvOk with attachOk := false }

/-- `startEnvOk` with the spec read-back failing. -/
def startEnvSpecFail : StartEnv :=
  { startEnvOk with specRead := none }

/-- A fully successful create oracle around `startEnvOk`. -/
def envOk : CreateEnv :=
  { rootIDsOk := true, prepareDirOk := true, mkdirOk := true, writeSpecOk := true,
    startEnv := startEnvOk }

/-- An Exit event for `ctrA`'s init process. -/
def evExitInit : Event :=
  { type := StateId.exit, id := "c1", pid := InitFriendlyName, status := 0 }

/-- An Exit event for the non-init process "p99" of `ctrA`. -/
def evExitP99 : Event :=
  { type := StateId.exit, id := "c1", pid := "p99", status := 7 }

/-- An event of a type `handleEvent` does not recognize. -/
def evStartC : Event :=
  { type := StateId.startContainer, id := "c1", pid := "", status := 0 }

/-- A wrapped stdin writer on which the do-once guard has already fired. -/
def sdDone : StdinState :=
  { onceDone := true, pipeCloseCalled := true, waiterSpawned := true }

/-- A wrapped stdin writer that has seen no close request yet. -/
def sdFresh : StdinState :=
  { onceDone := false, pipeCloseCalled := false, waiterSpawned := false }

/-- Deleting an id from an association list makes a later lookup of that id
miss. -/
theorem lookup_filter_ne (id : String) (l : List (String × Container)) :
    List.lookup id (l.filter (fun p => p.1 ≠ id)) = none := by
  induction l with
  | nil => rfl
  | cons hd tl ih =>
    by_cases h : hd.1 = id
    · simpa [List.filter_cons, h] using ih
    · have hne : (id == hd.1) = false := by
        simpa [beq_iff_eq] using fun hh => h hh.symm
      simpa [List.filter_cons, h, List.lookup, hne] using ih

/-- Looking up an id in the table after `deleteContainer` of that id finds
nothing. -/
theorem lookup_deleteContainer (cl : Client) (id : String) :
    List.lookup id (deleteContainer cl id).containers = none :=
  lookup_filter_ne id cl.containers

/-- C1: a second Create for an id that is still live fails with the
"already active" error and leaves the live table — in particular the first
entry — unmodified. -/
theorem secondCreate_alreadyActive (sysPre sysRoll : Sys) (cl : Client)
    (c : Container) (env : CreateEnv) (c0 : Container)
    (h : List.lookup c.containerID cl.containers = some c0) :
    (createC sysPre sysRoll cl c env).err = some CreateErr.alreadyActive ∧
    (createC sysPre sysRoll cl c env).client = cl ∧
    List.lookup c.containerID (createC sysPre sysRoll cl c env).client.containers
        = some c0 := by
  refine ⟨?_, ?_, ?_⟩ <;> simp [createC, h]

/-- Witness for C1 at a concrete live table. -/
theorem secondCreate_alreadyActive_w :
    (createC sysA sysA clLive ctrA envOk).err = some CreateErr.alreadyActive ∧
    (createC sysA sysA clLive ctrA envOk).client = clLive ∧
    List.lookup "c1" (createC sysA sysA clLive ctrA envOk).client.containers
        = some ctrA :=
  secondCreate_alreadyActive sysA sysA clLive ctrA envOk ctrA rfl

/-- C10: `clean` returns nil without removing anything when the
LIBCONTAINERD_NOCLEAN variable equals "1" or when the container directory is
already absent; consequently an init-exit transition handled with NOCLEAN
set leaves the bundle directory on disk while `handleEvent` still reports no
error. -/
theorem clean_conditional :
    (∀ (sys : Sys) (dir : String), sys.nocleanEnv = "1" → clean sys dir = (false, none)) ∧
    (∀ (sys : Sys) (dir : String), sys.lstat dir = LstatR.absent →
       clean sys dir = (false, none)) ∧
    (∀ (sys : Sys) (cl : Client) (ctr : Container) (id pid : String) (n : Nat),
       sys.nocleanEnv = "1" → pid = InitFriendlyName →
       (handleEvent sys cl ctr ⟨StateId.exit, id, pid, n⟩).cleanResult
           = some (false, none) ∧
       (handleEvent sys cl ctr ⟨StateId.exit, id, pid, n⟩).err = none) := by
  refine ⟨?_, ?_, ?_⟩
  · intro sys dir h
    simp [clean, h]
  · intro sys dir h
    by_cases hnc : sys.nocleanEnv = "1" <;> simp [clean, hnc, h]
  · intro sys cl ctr id pid n hnc hpid
    subst hpid
    constructor <;> simp [handleEvent, recognizedType, clean, hnc]

/-- Witness for C10 at concrete environments. -/
theorem clean_conditional_w :
    clean sysNoClean "/run/docker/libcontainerd/c1" = (false, none) ∧
    clean sysAbsent "/run/docker/libcontainerd/c1" = (false, none) ∧
    (handleEvent sysNoClean clLive ctrA evExitInit).cleanResult = some (false, none) ∧
    (handleEvent sysNoClean clLive ctrA evExitInit).err = none := by
  have h := clean_conditional
  have h3 := h.2.2 sysNoClean clLive ctrA "c1" InitFriendlyName 0 rfl rfl
  exact ⟨h.1 sysNoClean _ rfl, h.2.1 sysAbsent _ rfl, h3.1, h3.2⟩

/-- C5: at the failing input — the persisted specification cannot be read
back from the bundle directory — `start` returns nil (no error) and records
no init system id, instead of the non-nil error the claim requires; the
source's early return hands back nil where the read error should be. -/
theorem start_specReadFailure_returnsNil :
    start startEnvSpecFail
      = { trace := [Effect.readSpec], registered := false, pid := none, err := none } := rfl

/-- C3: handling an Exit event whose pid is the init name removes the
container's entry from the live table and invokes the directory cleanup,
while an Exit event for any other pid removes only that process from the
registry, leaves the table entry (hence the container) untouched, and does
not invoke the cleanup. -/
theorem handleEvent_exit_dispatch (sys : Sys) (cl : Client) (ctr : Container)
    (id pid : String) (n : Nat) :
    (pid = InitFriendlyName →
       (handleEvent sys cl ctr ⟨StateId.exit, id, pid, n⟩).client = deleteContainer cl id ∧
       List.lookup id (handleEvent sys cl ctr ⟨StateId.exit, id, pid, n⟩).client.containers
           = none ∧
       (handleEvent sys cl ctr ⟨StateId.exit, id, pid, n⟩).cleanCalled = true) ∧
    (pid ≠ InitFriendlyName →
       (handleEvent sys cl ctr ⟨StateId.exit, id, pid, n⟩).client = cl ∧
       (handleEvent sys cl ctr ⟨StateId.exit, id, pid, n⟩).ctr.processes
           = ctr.processes.filter (fun p => p ≠ pid) ∧
       (handleEvent sys cl ctr ⟨StateId.exit, id, pid, n⟩).cleanCalled = false) := by
  constructor
  · intro h
    subst h
    refine ⟨?_, ?_, ?_⟩ <;>
      simp [handleEvent, recognizedType, lookup_deleteContainer]
  · intro h
    refine ⟨?_, ?_, ?_⟩ <;>
      simp [handleEvent, recognizedType, h, cleanProcess]

/-- Witness for C3: the two Exit branches at concrete events. -/
theorem handleEvent_exit_dispatch_w :
    ((handleEvent sysA clLive ctrA evExitInit).client = deleteContainer clLive "c1" ∧
     List.lookup "c1" (handleEvent sysA clLive ctrA evExitInit).client.containers = none ∧
     (handleEvent sysA clLive ctrA evExitInit).cleanCalled = true) ∧
    ((handleEvent sysA clLive ctrA evExitP99).client = clLive ∧
     (handleEvent sysA clLive ctrA evExitP99).ctr.processes
         = ctrA.processes.filter (fun p => p ≠ "p99") ∧
     (handleEvent sysA clLive ctrA evExitP99).cleanCalled = false) := by
  have h1 := (handleEvent_exit_dispatch sysA clLive ctrA "c1" InitFriendlyName 0).1 rfl
  have h2 := (handleEvent_exit_dispatch sysA clLive ctrA "c1" "p99" 7).2 (by decide)
  exact ⟨h1, h2⟩

/-- C4: the sticky OOM flag survives the handling of every event (until the
Exited transition removes the whole entry), and an init Exit handled while
the flag is set queues a state-changed report with OOMKilled = true. -/
theorem oomFlag_sticky (sys : Sys) (cl : Client) (ctr : Container) (e : Event)
    (id : String) (n : Nat) (hoom : ctr.oom = true) :
    (handleEvent sys cl ctr e).ctr.oom = true ∧
    (handleEvent sys cl ctr ⟨StateId.exit, id, InitFriendlyName, n⟩).queued
        = some { state := StateId.exit, exitCode := n, oomKilled := true,
                 processID := "" } := by
  constructor
  · rcases e with ⟨t, eid, epid, en⟩
    cases t <;>
      (simp [handleEvent, recognizedType, cleanProcess, hoom];
       try (split_ifs <;> simp [cleanProcess, hoom]))
  · simp [handleEvent, recognizedType, hoom]

/-- Witness for C4 at a concrete flagged container. -/
theorem oomFlag_sticky_w :
    (handleEvent sysA clLive ctrOom evExitP99).ctr.oom = true ∧
    (handleEvent sysA clLive ctrOom evExitInit).queued
        = some { state := StateId.exit, exitCode := 0, oomKilled := true,
                 processID := "" } :=
  oomFlag_sticky sysA clLive ctrOom evExitP99 "c1" 0 rfl

/-- C6 counterexample: with the sticky OOM flag set, the report queued for an
Exit event carrying a non-init pid is an ExitedProcess report with
OOMKilled = true — the flag is consulted on the event type before the
non-init reclassification, so a non-Exited report does carry it. -/
theorem exitProcess_oomKilled_cex :
    (handleEvent sysA clLive ctrOom evExitP99).queued
      = some { state := StateId.exitProcess, exitCode := 7, oomKilled := true,
               processID := "p99" } := by
  simp [handleEvent, recognizedType, ctrOom, ctrA, evExitP99, InitFriendlyName]

/-- C6 amended: Paused, Resumed and OOM reports never carry OOMKilled =
true; every Exit-typed report — the ExitedProcess report for a non-init pid
just like the init Exited report — carries OOMKilled exactly when the sticky
flag is set. -/
theorem oomKilled_reports (sys : Sys) (cl : Client) (ctr : Container)
    (id pid : String) (n : Nat) :
    (handleEvent sys cl ctr ⟨StateId.pause, id, pid, n⟩).queued
        = some { state := StateId.pause, exitCode := n, oomKilled := false,
                 processID := "" } ∧
    (handleEvent sys cl ctr ⟨StateId.resume, id, pid, n⟩).queued
        = some { state := StateId.resume, exitCode := n, oomKilled := false,
                 processID := "" } ∧
    (handleEvent sys cl ctr ⟨StateId.oom, id, pid, n⟩).queued
        = some { state := StateId.oom, exitCode := n, oomKilled := false,
                 processID := "" } ∧
    (pid ≠ InitFriendlyName →
       (handleEvent sys cl ctr ⟨StateId.exit, id, pid, n⟩).queued
           = some { state := StateId.exitProcess, exitCode := n, oomKilled := ctr.oom,
                    processID := pid }) := by
  refine ⟨?_, ?_, ?_, ?_⟩
  · simp [handleEvent, recognizedType]
  · simp [handleEvent, recognizedType]
  · simp [handleEvent, recognizedType]
  · intro h
    simp [handleEvent, recognizedType, h]

/-- Witness for C6's amended statement at concrete events. -/
theorem oomKilled_reports_w :
    (handleEvent sysA clLive ctrOom ⟨StateId.pause, "c1", "", 0⟩).queued
        = some { state := StateId.pause, exitCode := 0, oomKilled := false,
                 processID := "" } ∧
    (handleEvent sysA clLive ctrOom evExitP99).queued
        = some { state := StateId.exitProcess, exitCode := 7, oomKilled := ctrOom.oom,
                 processID := "p99" } := by
  have h := oomKilled_reports sysA clLive ctrOom "c1" "p99" 7
  have h0 := oomKilled_reports sysA clLive ctrOom "c1" "" 0
  exact ⟨h0.1, h.2.2.2 (by decide)⟩

/-- C7: `handleEvent` returns nil on every path — an unrecognized event type
is only logged (nothing queued) — and the callback queued in the per-key
slot swallows a backend notification failure, logging it instead of
propagating it, so a failed event application is never retried. -/
theorem handleEvent_neverErrs (sys : Sys) (cl : Client) (ctr : Container)
    (e : Event) (berr : Option String) :
    (handleEvent sys cl ctr e).err = none ∧
    (recognizedType e.type = false →
       (handleEvent sys cl ctr e).unhandledLogged = true ∧
       (handleEvent sys cl ctr e).queued = none) ∧
    (notifySlot berr).2 = none ∧
    (∀ m, berr = some m → (notifySlot berr).1 ≠ []) := by
  refine ⟨?_, ?_, ?_, ?_⟩
  · rcases e with ⟨t, eid, epid, en⟩
    cases t <;>
      (simp [handleEvent, recognizedType];
       try (split_ifs <;> simp))
  · intro h
    constructor <;> simp [handleEvent, h]
  · cases berr <;> simp [notifySlot]
  · intro m hm
    subst hm
    simp [notifySlot]

/-- Witness for C7: an unrecognized event and a failing backend call. -/
theorem handleEvent_neverErrs_w :
    (handleEvent sysA clLive ctrA evStartC).err = none ∧
    (handleEvent sysA clLive ctrA evStartC).unhandledLogged = true ∧
    (handleEvent sysA clLive ctrA evStartC).queued = none ∧
    (notifySlot (some "boom")).2 = none ∧
    (notifySlot (some "boom")).1 ≠ [] := by
  have h := handleEvent_neverErrs sysA clLive ctrA evStartC (some "boom")
  have h2 := h.2.1 rfl
  exact ⟨h.1, h2.1, h2.2, h.2.2.1, h.2.2.2 "boom" rfl⟩

/-- C8: in every run of `start`, the stdio callback is invoked strictly
before the create RPC — a trace containing the RPC is an extension of the
prefix that ends with attachStdio immediately followed by the RPC — and when
the callback fails the FIFOs are closed and the attach error returned with
the RPC never issued. -/
theorem attach_before_createRPC (env : StartEnv) :
    (Effect.createRPC ∈ (start env).trace →
       ∃ rest, (start env).trace
         = [Effect.readSpec, Effect.openFifos, Effect.wrapStdin, Effect.appendCtr,
            Effect.attachStdio, Effect.createRPC] ++ rest) ∧
    (env.specRead.isSome = true → env.fifoOpenOk = true → env.attachOk = false →
       (start env).err = some StartErr.attachErr ∧
       Effect.createRPC ∉ (start env).trace ∧
       Effect.closeFifos ∈ (start env).trace) := by
  rcases env with ⟨sr, f, a, r, sc⟩
  constructor
  · intro hmem
    cases sr with
    | none => simp [start] at hmem
    | some s =>
      cases f with
      | false => simp [start] at hmem
      | true =>
        cases a with
        | false => simp [start] at hmem
        | true =>
          cases r with
          | none => exact ⟨[Effect.closeFifos], by simp [start]⟩
          | some p => exact ⟨[Effect.closeReady, Effect.stateChanged], by simp [start]⟩
  · intro hs hf ha
    subst hf
    subst ha
    cases sr with
    | none => simp at hs
    | some s => refine ⟨rfl, by simp [start], by simp [start]⟩

/-- Witness for C8: a successful run (RPC present in the trace) and a run
whose stdio callback fails. -/
theorem attach_before_createRPC_w :
    (∃ rest, (start startEnvOk).trace
       = [Effect.readSpec, Effect.openFifos, Effect.wrapStdin, Effect.appendCtr,
          Effect.attachStdio, Effect.createRPC] ++ rest) ∧
    ((start startEnvAttachFail).err = some StartErr.attachErr ∧
     Effect.createRPC ∉ (start startEnvAttachFail).trace ∧
     Effect.closeFifos ∈ (start startEnvAttachFail).trace) := by
  have h1 := (attach_before_createRPC startEnvOk).1 (by decide)
  have h2 := (attach_before_createRPC startEnvAttachFail).2 rfl rfl rfl
  exact ⟨h1, h2⟩

/-- C9: the wrapped stdin writer closes the underlying pipe on the very
first close request (returning that close's result) and makes every later
request a nil no-op; the background waiter sends the close-stdin
notification only when the ready channel is closed, the ready channel closes
only in runs whose create RPC was acknowledged, and a cancellation arriving
before acknowledgement abandons the notification. -/
theorem stdinClose_deferred (s : StdinState) (ce : Option String)
    (w : FirstWake) (b : Bool) (env : StartEnv) :
    (s.onceDone = true → closeRequest ce s = (s, none)) ∧
    (s.onceDone = false →
       (closeRequest ce s).1.pipeCloseCalled = true ∧ (closeRequest ce s).2 = ce) ∧
    (waiterSends w b = true → w = FirstWake.readyFirst ∨ b = true) ∧
    (waiterSends FirstWake.cancelFirst false = false) ∧
    (Effect.closeReady ∈ (start env).trace → env.rpcPid.isSome = true) := by
  refine ⟨?_, ?_, ?_, rfl, ?_⟩
  · intro h
    simp [closeRequest, h]
  · intro h
    constructor <;> simp [closeRequest, h]
  · intro h
    cases w with
    | readyFirst => exact Or.inl rfl
    | cancelFirst => exact Or.inr h
  · intro hmem
    rcases env with ⟨sr, f, a, r, sc⟩
    cases sr with
    | none => simp [start] at hmem
    | some sp =>
      cases f with
      | false => simp [start] at hmem
      | true =>
        cases a with
        | false => simp [start] at hmem
        | true =>
          cases r with
          | none => simp [start] at hmem
          | some p => rfl

/-- Witness for C9: a first and a second close request, an abandoned and a
delivered notification, and a run whose trace closes the ready channel. -/
theorem stdinClose_deferred_w :
    closeRequest (some "closeErr") sdDone = (sdDone, none) ∧
    ((closeRequest (some "closeErr") sdFresh).1.pipeCloseCalled = true ∧
     (closeRequest (some "closeErr") sdFresh).2 = some "closeErr") ∧
    (FirstWake.cancelFirst = FirstWake.readyFirst ∨ true = true) ∧
    waiterSends FirstWake.cancelFirst false = false ∧
    startEnvOk.rpcPid.isSome = true := by
  have h1 := stdinClose_deferred sdDone (some "closeErr") FirstWake.cancelFirst true startEnvOk
  have h2 := stdinClose_deferred sdFresh (some "closeErr") FirstWake.cancelFirst true startEnvOk
  exact ⟨h1.1 rfl, h2.2.1 rfl, h1.2.2.1 rfl, h1.2.2.2.1, h1.2.2.2.2 (by decide)⟩

end LibContainerd
